import Mathlib

/-!
Verification of the two scripts of the AzureArchitectureBlueprints repository:
`src/flows/interview-workflow/performance.py` (a workflow timing step) and
`src/infra/deploy.py` (a Bicep deployment driver).

Modelling conventions.
Python floats (wall-clock timestamps) are modelled as rationals; Python
`int(x)` is truncation toward zero, modelled by `py_int`.  The deploy script
is modelled as a pure function from its external inputs (environment
variables, the `az bicep build` subprocess result, the parsed JSON documents,
and the remote deployment result) to a trace of observable events (stdout and
stderr lines, subprocess/file/network operations) together with an exit
status.  JSON documents are the inductive `JValue`; Python's `json` module and
the file system are abstracted as inputs (an oracle `String → Option JValue`
for `json.loads`, with `none` standing for a raised exception).
-/

/-- JSON values, as produced by Python's `json.load`/`json.loads`.
Objects are association lists in insertion order (Python dicts preserve
insertion order and have distinct keys). -/
inductive JValue where
  | jnull : JValue
  | jbool : Bool → JValue
  | jnum : ℚ → JValue
  | jstr : String → JValue
  | jarr : List JValue → JValue
  | jobj : List (String × JValue) → JValue
  deriving Repr

/-- Python `d[key]` on a JSON object: first binding of `key`, `none` when the
value is not an object or the key is absent (a raised `KeyError`/`TypeError`). -/
def jget (j : JValue) (key : String) : Option JValue :=
  match j with
  | JValue.jobj fields => List.lookup key fields
  | _ => none

/-- Python `int(q)`: truncation toward zero. -/
def py_int (q : ℚ) : ℤ :=
  if 0 ≤ q then ⌊q⌋ else ⌈q⌉

/-- The metrics dictionary returned by `track_performance`
(`performance.py`): it has exactly these five fields. -/
structure PerformanceMetrics where
  total_execution_time_ms : ℤ
  start_time : ℚ
  end_time : ℚ
  status : String
  workflow_version : String
  deriving Repr, DecidableEq

/-- `track_performance` from `performance.py`.  The wall-clock sample
`time.time()` taken during the call is the explicit argument `end_time`;
`total_time = end_time - start_time` and the milliseconds field is
`int(total_time * 1000)`. -/
def track_performance (start_time : ℚ) (end_time : ℚ) : PerformanceMetrics :=
  let total_time : ℚ := end_time - start_time
  { total_execution_time_ms := py_int (total_time * 1000)
    start_time := start_time
    end_time := end_time
    status := "completed"
    workflow_version := "v1.0" }

/-- `py_int` is truncation toward zero: it never exceeds the argument in
magnitude, and misses it by less than one. -/
theorem py_int_trunc (q : ℚ) :
    |(py_int q : ℚ)| ≤ |q| ∧ |q| < |(py_int q : ℚ)| + 1 := by
  unfold py_int
  by_cases h : 0 ≤ q
  · simp only [if_pos h]
    have h1 : (0 : ℚ) ≤ (⌊q⌋ : ℚ) := by
      exact_mod_cast Int.floor_nonneg.mpr h
    rw [abs_of_nonneg h, abs_of_nonneg h1]
    exact ⟨Int.floor_le q, Int.lt_floor_add_one q⟩
  · push_neg at h
    simp only [if_neg (not_le.mpr h)]
    have h1 : (⌈q⌉ : ℚ) ≤ 0 := by
      have : ⌈q⌉ ≤ (0 : ℤ) := Int.ceil_le.mpr (by exact_mod_cast h.le)
      exact_mod_cast this
    rw [abs_of_neg h, abs_of_nonpos h1]
    constructor
    · linarith [Int.le_ceil q]
    · have := Int.ceil_lt_add_one q
      linarith

/-- C1: for every start_time `s`, the record returned by `track_performance`
stores the sampled wall-clock time in `end_time`, and its
`total_execution_time_ms` is the truncation toward zero of
`(end_time - s) * 1000` (Python's `int(total_time * 1000)`): its magnitude
never exceeds that of the exact product and misses it by less than one. -/
theorem track_performance_total_ms_trunc (s e : ℚ) :
    (track_performance s e).end_time = e ∧
    (track_performance s e).total_execution_time_ms = py_int ((e - s) * 1000) ∧
    |((track_performance s e).total_execution_time_ms : ℚ)| ≤ |(e - s) * 1000| ∧
    |(e - s) * 1000| < |((track_performance s e).total_execution_time_ms : ℚ)| + 1 := by
  refine ⟨rfl, rfl, ?_, ?_⟩
  · exact (py_int_trunc ((e - s) * 1000)).1
  · exact (py_int_trunc ((e - s) * 1000)).2

/-- C5: when the wall-clock sample taken during the call is at or after the
given start time, the returned record satisfies `end_time ≥ start_time`. -/
theorem track_performance_end_ge_start (s e : ℚ) (h : s ≤ e) :
    (track_performance s e).start_time ≤ (track_performance s e).end_time := by
  simpa [track_performance] using h

/-- Witness for C5 at start_time 1, end_time 2. -/
theorem track_performance_end_ge_start_witness :
    (1 : ℚ) ≤ 2 ∧
    (track_performance 1 2).start_time ≤ (track_performance 1 2).end_time :=
  ⟨by norm_num, track_performance_end_ge_start 1 2 (by norm_num)⟩

/-- C6: every record returned by `track_performance` has `status` exactly
"completed" and `workflow_version` exactly "v1.0". -/
theorem track_performance_fixed_fields (s e : ℚ) :
    (track_performance s e).status = "completed" ∧
    (track_performance s e).workflow_version = "v1.0" :=
  ⟨rfl, rfl⟩

/-- C7: two calls with the same start_time and arbitrary (in particular,
different) wall-clock samples agree on `status`, `workflow_version` and
`start_time`; the only fields where the two records can differ are
`end_time` and `total_execution_time_ms`. -/
theorem track_performance_same_start_agrees (s e₁ e₂ : ℚ) :
    (track_performance s e₁).status = (track_performance s e₂).status ∧
    (track_performance s e₁).workflow_version =
      (track_performance s e₂).workflow_version ∧
    (track_performance s e₁).start_time = (track_performance s e₂).start_time :=
  ⟨rfl, rfl, rfl⟩

/-- Deployment modes of the resource-management SDK
(`DeploymentMode.INCREMENTAL` is the one `deploy.py` uses). -/
inductive DeploymentMode where
  | incremental : DeploymentMode
  | complete : DeploymentMode
  deriving Repr, DecidableEq

/-- `DeploymentProperties(mode=…, template=…, parameters=…)` from the SDK,
as constructed in `deploy.py`. -/
structure DeploymentProperties where
  mode : DeploymentMode
  template : JValue
  parameters : List (String × JValue)
  deriving Repr

/-- `Deployment(properties=…)` from the SDK. -/
structure Deployment where
  properties : DeploymentProperties
  deriving Repr

/-- The result of `subprocess.run(…, capture_output=True, text=True)`. -/
structure CompletedProcess where
  returncode : ℤ
  stdout : String
  process_err : String
  deriving Repr

/-- `result.properties` of the finished remote operation: the provisioning
state and the outputs dictionary.  `outputs` is `none` when the remote result
carries no outputs object (Python `None`); each output value is itself a
dictionary, read with `.get("value", "N/A")`. -/
structure RemoteProperties where
  provisioning_state : String
  outputs : Option (List (String × List (String × JValue)))
  deriving Repr

/-- The object returned by `operation.result()`. -/
structure RemoteResult where
  properties : RemoteProperties
  deriving Repr

/-- Observable actions of one run of `deploy.py`: lines printed to stdout and
stderr, construction of the credential and the management client, the
`az bicep build` subprocess, opening the parameters file, the
`begin_create_or_update` network submission, and waiting on
`operation.result()`. -/
inductive Event where
  | out : String → Event
  | err : String → Event
  | azureCliCredential : Event
  | resourceManagementClient : String → Event
  | runAzBicepBuild : String → Event
  | openParamsFile : String → Event
  | beginCreateOrUpdate : String → String → Deployment → Event
  | operationResult : Event
  deriving Repr

/-- How one run of the script ends: normal completion, `sys.exit(code)`, or
an uncaught exception (named by the operation that raised). -/
inductive ExitStatus where
  | ok : ExitStatus
  | exited : ℤ → ExitStatus
  | raised : String → ExitStatus
  deriving Repr, DecidableEq

/-- One run of the script: its event trace and how it ended. -/
structure Run where
  events : List Event
  exit : ExitStatus
  deriving Repr

/-- The four module-level configuration values of `deploy.py`. -/
structure Config where
  RESOURCE_GROUP : String
  SUBSCRIPTION_ID : String
  BICEP_FILE : String
  PARAMETERS_FILE : String
  deriving Repr, DecidableEq

/-- `os.getenv(name)`: the process environment is an association list. -/
def getenv (env : List (String × String)) (name : String) : Option String :=
  List.lookup name env

/-- `os.getenv(name, default)`. -/
def getenv_default (env : List (String × String)) (name dflt : String) : String :=
  (getenv env name).getD dflt

/-- Python truthiness of `os.getenv`'s result: `None` and the empty string
are falsy (`if not SUBSCRIPTION_ID`). -/
def py_truthy_opt : Option String → Bool
  | none => false
  | some s => !s.isEmpty

/-- The module-level code of `deploy.py` (lines 13-21): read the four
configuration values; if `AZURE_SUBSCRIPTION_ID` is falsy, print two
guidance lines to stderr and `sys.exit(1)`. -/
def module_init (env : List (String × String)) : Except (List Event × ℤ) Config :=
  let rg := getenv_default env "AZURE_RESOURCE_GROUP" "rg-agentic-waf"
  let sub := getenv env "AZURE_SUBSCRIPTION_ID"
  let bicep := getenv_default env "BICEP_TEMPLATE_FILE" "infra/bicep/main.bicep"
  let pfile := getenv_default env "BICEP_PARAMETERS_FILE" "infra/bicep/main.parameters.json"
  if py_truthy_opt sub then
    Except.ok ⟨rg, sub.getD "", bicep, pfile⟩
  else
    Except.error
      ([Event.err "Error: AZURE_SUBSCRIPTION_ID environment variable is required",
        Event.err "Set it with: export AZURE_SUBSCRIPTION_ID=<your-subscription-id>"], 1)

/-- `compile_bicep` from `deploy.py`: print the progress line, run
`az bicep build`; on non-zero return code print the tool's stderr to stderr
and `sys.exit(1)`, otherwise `json.loads` the captured stdout (`json_loads`
is the oracle modelling the `json` module; `none` models a raised
`JSONDecodeError`). -/
def compile_bicep (bicep_path : String) (proc : CompletedProcess)
    (json_loads : String → Option JValue) : List Event × Except ExitStatus JValue :=
  let ev0 := [Event.out ("Compiling " ++ bicep_path ++ "..."),
              Event.runAzBicepBuild bicep_path]
  if proc.returncode ≠ 0 then
    (ev0 ++ [Event.err ("Error compiling Bicep: " ++ proc.process_err)],
     Except.error (ExitStatus.exited 1))
  else
    match json_loads proc.stdout with
    | none => (ev0, Except.error (ExitStatus.raised "json.loads"))
    | some j => (ev0, Except.ok j)

/-- The dictionary comprehension of `load_parameters`:
`{k: v["value"] for k, v in fields}`; `none` models the `KeyError`/`TypeError`
raised when an entry lacks a `"value"` field or is not a dictionary. -/
def extract_param_values : List (String × JValue) → Option (List (String × JValue))
  | [] => some []
  | kv :: rest =>
    match jget kv.2 "value" with
    | none => none
    | some w =>
      match extract_param_values rest with
      | none => none
      | some tail => some ((kv.1, w) :: tail)

/-- `load_parameters` from `deploy.py`, applied to the already-parsed JSON of
the parameters file: index `params["parameters"]` and flatten each entry to
its `"value"` member; `none` models a raised exception (missing key, or the
entries are not a dictionary). -/
def load_parameters (params : JValue) : Option (List (String × JValue)) :=
  match jget params "parameters" with
  | some (JValue.jobj fields) => extract_param_values fields
  | _ => none

/-- The dictionary comprehension in `main`:
`{k: {"value": v} for k, v in parameters.items()}`. -/
def rewrap_parameters (ps : List (String × JValue)) : List (String × JValue) :=
  ps.map (fun kv => (kv.1, JValue.jobj [("value", kv.2)]))

/-- Python `str()` of a JSON value, as used when printing an output value.
Strings print as themselves; the representations of containers are
abstracted (no claim depends on them). -/
def py_str : JValue → String
  | JValue.jnull => "None"
  | JValue.jbool true => "True"
  | JValue.jbool false => "False"
  | JValue.jnum q => toString q
  | JValue.jstr s => s
  | JValue.jarr _ => "[...]"
  | JValue.jobj _ => "\x7b...\x7d"

/-- The output loop of `main` (lines 77-82 of `deploy.py`):
`print("\nOutputs:")` then one line `  key: value.get("value", "N/A")` per
declared output. -/
def print_outputs (outs : List (String × List (String × JValue))) : List Event :=
  Event.out "\nOutputs:" ::
    outs.map (fun kv =>
      Event.out ("  " ++ kv.1 ++ ": " ++
        py_str ((List.lookup "value" kv.2).getD (JValue.jstr "N/A"))))

namespace DeployScript

/-- The guarded output block of `main` (lines 79-82 of `deploy.py`):
`if result.properties.outputs:` — Python `None` and the empty dictionary are
falsy — then the output loop. -/
def outputs_events (o : Option (List (String × List (String × JValue)))) :
    List Event :=
  match o with
  | none => []
  | some outs => if outs.isEmpty then [] else print_outputs outs

/-- `main` from `deploy.py`, given a module-level configuration and the
external world: the `az bicep build` subprocess result, the `json` module
oracle, the parsed parameters file (`none` models `open`/`json.load`
raising), and the remote operation's result. -/
def main (cfg : Config) (proc : CompletedProcess)
    (json_loads : String → Option JValue) (params_file_json : Option JValue)
    (remote : RemoteResult) : Run :=
  let ev0 := [Event.out "Initializing Azure deployment...",
              Event.azureCliCredential,
              Event.resourceManagementClient cfg.SUBSCRIPTION_ID]
  match compile_bicep cfg.BICEP_FILE proc json_loads with
  | (evs, Except.error st) => ⟨ev0 ++ evs, st⟩
  | (evs, Except.ok template) =>
    let ev1 := ev0 ++ evs ++ [Event.openParamsFile cfg.PARAMETERS_FILE]
    match params_file_json with
    | none => ⟨ev1, ExitStatus.raised "json.load"⟩
    | some pj =>
      match load_parameters pj with
      | none => ⟨ev1, ExitStatus.raised "load_parameters"⟩
      | some parameters =>
        let deployment_name := "infrastructure-deployment"
        let d : Deployment :=
          ⟨⟨DeploymentMode.incremental, template, rewrap_parameters parameters⟩⟩
        let ev2 := ev1 ++
          [Event.out ("Starting deployment \x27" ++ deployment_name ++
             "\x27 to resource group \x27" ++ cfg.RESOURCE_GROUP ++ "\x27..."),
           Event.beginCreateOrUpdate cfg.RESOURCE_GROUP deployment_name d,
           Event.out "Deployment started. Waiting for completion...",
           Event.operationResult,
           Event.out ("\n✓ Deployment completed: " ++
             remote.properties.provisioning_state)]
        let ev3 := ev2 ++ outputs_events remote.properties.outputs
        ⟨ev3, ExitStatus.ok⟩

/-- The whole script `deploy.py`: module-level initialization (which may
`sys.exit(1)`), then `main()`. -/
def deploy_script (env : List (String × String)) (proc : CompletedProcess)
    (json_loads : String → Option JValue) (params_file_json : Option JValue)
    (remote : RemoteResult) : Run :=
  match module_init env with
  | Except.error (evs, code) => ⟨evs, ExitStatus.exited code⟩
  | Except.ok cfg => main cfg proc json_loads params_file_json remote

end DeployScript

export DeployScript (deploy_script outputs_events)

/-- Events that touch the Azure control plane (client construction,
deployment submission, waiting on the remote operation). -/
def is_network_event : Event → Bool
  | Event.resourceManagementClient _ => true
  | Event.beginCreateOrUpdate _ _ _ => true
  | Event.operationResult => true
  | _ => false

/-- Events that submit a deployment (`begin_create_or_update`). -/
def is_submit : Event → Bool
  | Event.beginCreateOrUpdate _ _ _ => true
  | _ => false

/-- Every `begin_create_or_update` event uses incremental mode and the fixed
deployment name "infrastructure-deployment". -/
def submit_shape_ok : Event → Bool
  | Event.beginCreateOrUpdate _ nm d =>
      nm == "infrastructure-deployment" &&
        (d.properties.mode == DeploymentMode.incremental)
  | _ => true

/-- `pat` occurs as a substring of `s`: `s` splits as `pre ++ pat ++ post`. -/
def substr_occurs (pat s : String) : Prop :=
  ∃ pre post, s = pre ++ pat ++ post

/-- A concrete environment with no `AZURE_SUBSCRIPTION_ID` entry. -/
def empty_env : List (String × String) := []

/-- A concrete environment carrying a subscription identifier. -/
def sample_env : List (String × String) := [("AZURE_SUBSCRIPTION_ID", "sub-123")]

/-- A concrete module-level configuration. -/
def sample_config : Config := ⟨"rg", "sub-123", "b.bicep", "p.json"⟩

/-- A concrete successful `az bicep build` subprocess result. -/
def ok_proc : CompletedProcess := ⟨0, "tmpl", ""⟩

/-- A concrete failed `az bicep build` subprocess result. -/
def failed_proc : CompletedProcess := ⟨1, "", "boom"⟩

/-- A concrete `json.loads` oracle: every string parses to the empty object. -/
def stub_json_loads : String → Option JValue := fun _ => some (JValue.jobj [])

/-- The mocked remote result of the spec's success scenario, extended with an
output entry that lacks a `"value"` field. -/
def sample_remote : RemoteResult :=
  ⟨⟨"Succeeded",
    some [("url", [("value", JValue.jstr "http://example")]), ("raw", [])]⟩⟩

/-- The entries of the spec's sample parameters document. -/
def sample_params_fields : List (String × JValue) :=
  [("a", JValue.jobj [("value", JValue.jnum 1)]),
   ("b", JValue.jobj [("value", JValue.jstr "x")])]

/-- The spec's sample parameters document
`{"parameters": {"a": {"value": 1}, "b": {"value": "x"}}}`. -/
def sample_params_doc : JValue :=
  JValue.jobj [("parameters", JValue.jobj sample_params_fields)]

/-- C2: when `AZURE_SUBSCRIPTION_ID` is unset in the environment, the script
exits with status 1, prints a stderr line containing "AZURE_SUBSCRIPTION_ID",
and its trace holds no network event: no management client is constructed
and no deployment is submitted. -/
theorem deploy_unset_subscription_exits
    (env : List (String × String)) (proc : CompletedProcess)
    (json_loads : String → Option JValue) (pfj : Option JValue)
    (remote : RemoteResult)
    (h : getenv env "AZURE_SUBSCRIPTION_ID" = none) :
    (deploy_script env proc json_loads pfj remote).exit = ExitStatus.exited 1 ∧
    (∃ line, Event.err line ∈ (deploy_script env proc json_loads pfj remote).events ∧
      substr_occurs "AZURE_SUBSCRIPTION_ID" line) ∧
    ∀ e ∈ (deploy_script env proc json_loads pfj remote).events,
      is_network_event e = false := by
  have hrun : deploy_script env proc json_loads pfj remote =
      ⟨[Event.err "Error: AZURE_SUBSCRIPTION_ID environment variable is required",
        Event.err "Set it with: export AZURE_SUBSCRIPTION_ID=<your-subscription-id>"],
       ExitStatus.exited 1⟩ := by
    simp [deploy_script, DeployScript.deploy_script, module_init, h, py_truthy_opt]
  refine ⟨by rw [hrun], ?_, ?_⟩
  · refine ⟨"Error: AZURE_SUBSCRIPTION_ID environment variable is required",
      ?_, "Error: ", " environment variable is required", by decide⟩
    rw [hrun]
    simp
  · rw [hrun]
    intro e he
    simp only [List.mem_cons, List.not_mem_nil, or_false] at he
    rcases he with he | he <;> subst he <;> rfl

/-- Witness for C2: the empty environment. -/
theorem deploy_unset_subscription_exits_witness :
    (deploy_script empty_env failed_proc stub_json_loads none sample_remote).exit =
      ExitStatus.exited 1 ∧
    (∃ line,
      Event.err line ∈
        (deploy_script empty_env failed_proc stub_json_loads none sample_remote).events ∧
      substr_occurs "AZURE_SUBSCRIPTION_ID" line) ∧
    ∀ e ∈ (deploy_script empty_env failed_proc stub_json_loads none sample_remote).events,
      is_network_event e = false :=
  deploy_unset_subscription_exits empty_env failed_proc stub_json_loads none
    sample_remote rfl

/-- C3: when the `az bicep build` subprocess returns a non-zero status, `main`
exits with status 1, relays the tool's stderr text in its own stderr
diagnostic, and never submits a deployment (`begin_create_or_update` does not
occur in the trace). -/
theorem main_compile_failure_no_submit
    (cfg : Config) (proc : CompletedProcess)
    (json_loads : String → Option JValue) (pfj : Option JValue)
    (remote : RemoteResult)
    (h : proc.returncode ≠ 0) :
    (DeployScript.main cfg proc json_loads pfj remote).exit = ExitStatus.exited 1 ∧
    Event.err ("Error compiling Bicep: " ++ proc.process_err) ∈
      (DeployScript.main cfg proc json_loads pfj remote).events ∧
    ∀ e ∈ (DeployScript.main cfg proc json_loads pfj remote).events,
      is_submit e = false := by
  have hrun : DeployScript.main cfg proc json_loads pfj remote =
      ⟨[Event.out "Initializing Azure deployment...",
        Event.azureCliCredential,
        Event.resourceManagementClient cfg.SUBSCRIPTION_ID,
        Event.out ("Compiling " ++ cfg.BICEP_FILE ++ "..."),
        Event.runAzBicepBuild cfg.BICEP_FILE,
        Event.err ("Error compiling Bicep: " ++ proc.process_err)],
       ExitStatus.exited 1⟩ := by
    simp [DeployScript.main, compile_bicep, h]
  refine ⟨by rw [hrun], by rw [hrun]; simp, ?_⟩
  rw [hrun]
  intro e he
  simp only [List.mem_cons, List.not_mem_nil, or_false] at he
  rcases he with he | he | he | he | he | he <;> subst he <;> rfl

/-- Witness for C3: a subprocess result with return code 1 and stderr
"boom". -/
theorem main_compile_failure_no_submit_witness :
    (DeployScript.main sample_config failed_proc stub_json_loads none
        sample_remote).exit = ExitStatus.exited 1 ∧
    Event.err ("Error compiling Bicep: " ++ failed_proc.process_err) ∈
      (DeployScript.main sample_config failed_proc stub_json_loads none
        sample_remote).events ∧
    ∀ e ∈ (DeployScript.main sample_config failed_proc stub_json_loads none
        sample_remote).events,
      is_submit e = false :=
  main_compile_failure_no_submit sample_config failed_proc stub_json_loads none
    sample_remote (by decide)

/-- When each entry of `fields` carries a `"value"` member, the dictionary
comprehension of `load_parameters` flattens each entry to that member. -/
theorem extract_param_values_eq (fields : List (String × JValue))
    (h : ∀ kv ∈ fields, (jget kv.2 "value").isSome) :
    extract_param_values fields =
      some (fields.map (fun kv => (kv.1, (jget kv.2 "value").getD JValue.jnull))) := by
  induction fields with
  | nil => rfl
  | cons kv rest ih =>
    have h1 : (jget kv.2 "value").isSome = true := h kv (by simp)
    obtain ⟨w, hw⟩ := Option.isSome_iff_exists.mp h1
    have h2 : ∀ x ∈ rest, (jget x.2 "value").isSome :=
      fun x hx => h x (List.mem_cons_of_mem kv hx)
    simp [extract_param_values, hw, ih h2]

/-- C4: for every parameters document
`{"parameters": {name: {"value": any}, …}}` — i.e. one whose entries each
carry a `"value"` member — `load_parameters` returns the flat mapping sending
each name to that nested `"value"`. -/
theorem load_parameters_extracts (fields : List (String × JValue))
    (h : ∀ kv ∈ fields, (jget kv.2 "value").isSome) :
    load_parameters (JValue.jobj [("parameters", JValue.jobj fields)]) =
      some (fields.map (fun kv => (kv.1, (jget kv.2 "value").getD JValue.jnull))) := by
  have hfix : jget (JValue.jobj [("parameters", JValue.jobj fields)]) "parameters" =
      some (JValue.jobj fields) := by
    simp [jget, List.lookup]
  simp only [load_parameters, hfix]
  exact extract_param_values_eq fields h

/-- Witness for C4: the spec's sample document
`{"parameters": {"a": {"value": 1}, "b": {"value": "x"}}}` yields
`{"a": 1, "b": "x"}`. -/
theorem load_parameters_extracts_witness :
    load_parameters sample_params_doc =
      some [("a", JValue.jnum 1), ("b", JValue.jstr "x")] := by
  have h : ∀ kv ∈ sample_params_fields, (jget kv.2 "value").isSome := by
    intro kv hkv
    simp only [sample_params_fields, List.mem_cons, List.not_mem_nil, or_false] at hkv
    rcases hkv with hkv | hkv <;> subst hkv <;> rfl
  have := load_parameters_extracts sample_params_fields h
  simpa [sample_params_doc, sample_params_fields, jget, List.lookup] using this

/-- The parameter entries of the C10 witness: the single parameter `a`
carries an extra field besides `"value"`. -/
def c10_fields : List (String × JValue) :=
  [("a", JValue.jobj [("value", JValue.jnum 1), ("extra", JValue.jstr "zzz")])]

/-- C10: for every parameters document whose entries each carry a `"value"`
member, composing `load_parameters` with the re-wrapping comprehension from
`main` yields exactly `{name: {"value": doc["parameters"][name]["value"]}}`:
any fields of an entry other than `"value"` are discarded. -/
theorem rewrap_load_parameters_composition (fields : List (String × JValue))
    (h : ∀ kv ∈ fields, (jget kv.2 "value").isSome) :
    ∃ ps, load_parameters (JValue.jobj [("parameters", JValue.jobj fields)]) =
        some ps ∧
      rewrap_parameters ps =
        fields.map (fun kv =>
          (kv.1, JValue.jobj [("value", (jget kv.2 "value").getD JValue.jnull)])) := by
  refine ⟨fields.map (fun kv => (kv.1, (jget kv.2 "value").getD JValue.jnull)), ?_, ?_⟩
  · have hfix : jget (JValue.jobj [("parameters", JValue.jobj fields)]) "parameters" =
        some (JValue.jobj fields) := by
      simp [jget, List.lookup]
    simp only [load_parameters, hfix]
    exact extract_param_values_eq fields h
  · simp [rewrap_parameters, List.map_map, Function.comp]

/-- Witness for C10: an entry with an extra field besides `"value"`; the
extra field does not survive into the re-wrapped parameters. -/
theorem rewrap_load_parameters_composition_witness :
    ∃ ps, load_parameters (JValue.jobj [("parameters", JValue.jobj c10_fields)]) =
        some ps ∧
      rewrap_parameters ps = [("a", JValue.jobj [("value", JValue.jnum 1)])] := by
  have h : ∀ kv ∈ c10_fields, (jget kv.2 "value").isSome := by
    intro kv hkv
    simp only [c10_fields, List.mem_cons, List.not_mem_nil, or_false] at hkv
    subst hkv
    rfl
  have := rewrap_load_parameters_composition c10_fields h
  simpa [c10_fields, jget, List.lookup] using this

/-- The trace of `compile_bicep` contains no submission event, and every
event in it trivially satisfies the submission shape predicate. -/
theorem compile_bicep_events_plain (p : String) (proc : CompletedProcess)
    (jl : String → Option JValue) :
    ∀ e ∈ (compile_bicep p proc jl).1,
      is_submit e = false ∧ submit_shape_ok e = true := by
  intro e he
  simp only [compile_bicep] at he
  by_cases h : proc.returncode ≠ 0
  · simp only [if_pos h, List.mem_append, List.mem_cons, List.not_mem_nil,
      or_false] at he
    rcases he with (he | he) | he <;> subst he <;> exact ⟨rfl, rfl⟩
  · simp only [if_neg h] at he
    cases hjl : jl proc.stdout <;> rw [hjl] at he <;>
      simp only [List.mem_cons, List.not_mem_nil, or_false] at he <;>
      rcases he with he | he <;> subst he <;> exact ⟨rfl, rfl⟩

/-- When `compile_bicep` fails, its status is `sys.exit(1)` or a raised
JSON-decoding error — never normal completion. -/
theorem compile_bicep_error_status (p : String) (proc : CompletedProcess)
    (jl : String → Option JValue) (st : ExitStatus)
    (h : (compile_bicep p proc jl).2 = Except.error st) :
    st = ExitStatus.exited 1 ∨ st = ExitStatus.raised "json.loads" := by
  simp only [compile_bicep] at h
  by_cases hr : proc.returncode ≠ 0
  · simp only [if_pos hr] at h
    left
    exact (Except.error.injEq _ _ ▸ h).symm
  · simp only [if_neg hr] at h
    cases hjl : jl proc.stdout <;> rw [hjl] at h
    · right
      exact (Except.error.injEq _ _ ▸ h).symm
    · exact absurd h (by simp)

/-- The trace of the output loop consists only of stdout lines. -/
theorem print_outputs_events_plain (outs : List (String × List (String × JValue))) :
    ∀ e ∈ print_outputs outs, is_submit e = false ∧ submit_shape_ok e = true := by
  intro e he
  simp only [print_outputs, List.mem_cons, List.mem_map] at he
  rcases he with he | ⟨kv, _, he⟩ <;> subst he <;> exact ⟨rfl, rfl⟩

/-- A list with no submission events counts zero submissions. -/
theorem countP_submit_eq_zero {l : List Event}
    (h : ∀ e ∈ l, is_submit e = false) : l.countP is_submit = 0 := by
  rw [List.countP_eq_zero]
  intro a ha
  simp [h a ha]

/-- The guarded output block contributes no submission event, and all its
events satisfy the submission shape predicate. -/
theorem outputs_events_plain (o : Option (List (String × List (String × JValue)))) :
    ∀ e ∈ outputs_events o, is_submit e = false ∧ submit_shape_ok e = true := by
  intro e he
  cases o with
  | none => simp [outputs_events] at he
  | some outs =>
    simp only [outputs_events] at he
    by_cases hemp : outs.isEmpty
    · rw [if_pos hemp] at he
      simp at he
    · rw [if_neg hemp] at he
      exact print_outputs_events_plain outs e he

/-- C8: in every run of `main`, any submitted deployment uses incremental
mode and the fixed deployment name "infrastructure-deployment", and a run
that completes normally submits exactly one deployment. -/
theorem main_submits_incremental_once
    (cfg : Config) (proc : CompletedProcess)
    (json_loads : String → Option JValue) (pfj : Option JValue)
    (remote : RemoteResult) :
    (∀ e ∈ (DeployScript.main cfg proc json_loads pfj remote).events,
      submit_shape_ok e = true) ∧
    ((DeployScript.main cfg proc json_loads pfj remote).exit = ExitStatus.ok →
      ((DeployScript.main cfg proc json_loads pfj remote).events.countP is_submit)
        = 1) := by
  have hcb_plain := compile_bicep_events_plain cfg.BICEP_FILE proc json_loads
  cases hcb : compile_bicep cfg.BICEP_FILE proc json_loads with
  | mk evs res =>
    rw [hcb] at hcb_plain
    cases res with
    | error st =>
      have hst := compile_bicep_error_status cfg.BICEP_FILE proc json_loads st
        (by rw [hcb])
      constructor
      · intro e he
        simp only [DeployScript.main, hcb, List.mem_append, List.mem_cons,
          List.not_mem_nil, or_false, false_or, or_assoc] at he
        rcases he with he | he | he | he
        · subst he; rfl
        · subst he; rfl
        · subst he; rfl
        · exact (hcb_plain e he).2
      · intro hok
        simp only [DeployScript.main, hcb] at hok
        rcases hst with hst | hst <;> simp [hst] at hok
    | ok template =>
      cases pfj with
      | none =>
        constructor
        · intro e he
          simp only [DeployScript.main, hcb, List.mem_append, List.mem_cons,
            List.not_mem_nil, or_false, false_or, or_assoc] at he
          rcases he with he | he | he | he | he
          · subst he; rfl
          · subst he; rfl
          · subst he; rfl
          · exact (hcb_plain e he).2
          · subst he; rfl
        · intro hok
          simp only [DeployScript.main, hcb] at hok
          simp at hok
      | some pj =>
        cases hlp : load_parameters pj with
        | none =>
          constructor
          · intro e he
            simp only [DeployScript.main, hcb, hlp, List.mem_append, List.mem_cons,
              List.not_mem_nil, or_false, false_or, or_assoc] at he
            rcases he with he | he | he | he | he
            · subst he; rfl
            · subst he; rfl
            · subst he; rfl
            · exact (hcb_plain e he).2
            · subst he; rfl
          · intro hok
            simp only [DeployScript.main, hcb, hlp] at hok
            simp at hok
        | some ps =>
          have htail := outputs_events_plain remote.properties.outputs
          constructor
          · intro e he
            simp only [DeployScript.main, hcb, hlp, List.mem_append, List.mem_cons,
              List.not_mem_nil, or_false, false_or, or_assoc] at he
            rcases he with he | he | he | he | he | he | he | he | he | he | he
            · subst he; rfl
            · subst he; rfl
            · subst he; rfl
            · exact (hcb_plain e he).2
            · subst he; rfl
            · subst he; rfl
            · subst he; simp [submit_shape_ok]
            · subst he; rfl
            · subst he; rfl
            · subst he; rfl
            · exact (htail e he).2
          · intro _
            have h1 : evs.countP is_submit = 0 :=
              countP_submit_eq_zero (fun e he => (hcb_plain e he).1)
            have h2 : (outputs_events remote.properties.outputs).countP is_submit
                = 0 :=
              countP_submit_eq_zero (fun e he => (htail e he).1)
            simp only [DeployScript.main, hcb, hlp, List.countP_append,
              List.countP_cons]
            simp [h1, h2, is_submit]

/-- Witness for C8: a successful concrete run submits exactly once. -/
theorem main_submits_incremental_once_witness :
    (∀ e ∈ (DeployScript.main sample_config ok_proc stub_json_loads
        (some sample_params_doc) sample_remote).events,
      submit_shape_ok e = true) ∧
    ((DeployScript.main sample_config ok_proc stub_json_loads
        (some sample_params_doc) sample_remote).events.countP is_submit) = 1 := by
  have h := main_submits_incremental_once sample_config ok_proc stub_json_loads
    (some sample_params_doc) sample_remote
  exact ⟨h.1, h.2 (by rfl)⟩

/-- C9: on a run that reaches the remote result, the terminal provisioning
state is printed, and each declared output is printed as its key and the
string of its `"value"` member, with `"N/A"` when that member is absent. -/
theorem main_success_prints_state_and_outputs
    (cfg : Config) (proc : CompletedProcess)
    (json_loads : String → Option JValue) (pfj : Option JValue)
    (remote : RemoteResult) (template pj : JValue) (ps : List (String × JValue))
    (outs : List (String × List (String × JValue)))
    (h0 : proc.returncode = 0)
    (h1 : json_loads proc.stdout = some template)
    (h2 : pfj = some pj)
    (h3 : load_parameters pj = some ps)
    (h4 : remote.properties.outputs = some outs)
    (h5 : outs ≠ []) :
    Event.out ("\n✓ Deployment completed: " ++ remote.properties.provisioning_state)
      ∈ (DeployScript.main cfg proc json_loads pfj remote).events ∧
    ∀ kv ∈ outs,
      Event.out ("  " ++ kv.1 ++ ": " ++
          py_str ((List.lookup "value" kv.2).getD (JValue.jstr "N/A")))
        ∈ (DeployScript.main cfg proc json_loads pfj remote).events := by
  have hcb : compile_bicep cfg.BICEP_FILE proc json_loads =
      ([Event.out ("Compiling " ++ cfg.BICEP_FILE ++ "..."),
        Event.runAzBicepBuild cfg.BICEP_FILE], Except.ok template) := by
    simp [compile_bicep, h0, h1]
  subst h2
  have h5' : outs.isEmpty = false := by
    cases outs with
    | nil => exact absurd rfl h5
    | cons a l => rfl
  constructor
  · simp [DeployScript.main, hcb, h3]
  · intro kv hkv
    have hpo : Event.out ("  " ++ kv.1 ++ ": " ++
        py_str ((List.lookup "value" kv.2).getD (JValue.jstr "N/A")))
        ∈ print_outputs outs := by
      simp only [print_outputs, List.mem_cons, List.mem_map]
      exact Or.inr ⟨kv, hkv, rfl⟩
    simp [DeployScript.main, hcb, h3, h4, outputs_events, h5', hpo]

/-- Witness for C9: the spec's mocked success scenario.  Stdout carries the
"Succeeded" terminal state and "url: http://example"; the output entry with
no `"value"` member prints as "N/A". -/
theorem main_success_prints_state_and_outputs_witness :
    Event.out "\n✓ Deployment completed: Succeeded"
      ∈ (DeployScript.main sample_config ok_proc stub_json_loads
          (some sample_params_doc) sample_remote).events ∧
    Event.out "  url: http://example"
      ∈ (DeployScript.main sample_config ok_proc stub_json_loads
          (some sample_params_doc) sample_remote).events ∧
    Event.out "  raw: N/A"
      ∈ (DeployScript.main sample_config ok_proc stub_json_loads
          (some sample_params_doc) sample_remote).events := by
  have h := main_success_prints_state_and_outputs sample_config ok_proc
    stub_json_loads (some sample_params_doc) sample_remote
    (JValue.jobj []) sample_params_doc
    [("a", JValue.jnum 1), ("b", JValue.jstr "x")]
    [("url", [("value", JValue.jstr "http://example")]), ("raw", [])]
    rfl rfl rfl (by rfl) (by rfl) (by simp)
  refine ⟨?_, ?_, ?_⟩
  · have h1 := h.1
    rw [show ("\n✓ Deployment completed: " ++
        sample_remote.properties.provisioning_state) =
      "\n✓ Deployment completed: Succeeded" from by decide] at h1
    exact h1
  · have h2 := h.2 ("url", [("value", JValue.jstr "http://example")]) (by simp)
    rw [show ("  " ++ "url" ++ ": " ++
        py_str ((List.lookup "value" [("value", JValue.jstr "http://example")]).getD
          (JValue.jstr "N/A"))) = "  url: http://example" from by decide] at h2
    exact h2
  · have h3 := h.2 ("raw", []) (by simp)
    rw [show ("  " ++ "raw" ++ ": " ++
        py_str ((List.lookup "value"
          ([] : List (String × JValue))).getD (JValue.jstr "N/A"))) =
      "  raw: N/A" from by decide] at h3
    exact h3
